import Mathlib

/-!
Shallow embedding of the yapmidi track handlers (ymidi/handlers/track.py) and the
parts of the spec's data model that they manipulate, together with theorems settling
the spec's claims about them.

Python mutation is rendered as explicit state passing: each handler receives the
container, the event and the insertion index, and returns the updated value paired
with a `Bool` recording the truthiness of the handler's Python return value (the
module docstring's chain contract: any return value that does not evaluate to false
stops the handle operation).  Handlers that can raise a Python exception return
`Except PyError`.
-/

namespace YMidi

/-- Python runtime exceptions that the handler bodies can raise. -/
inductive PyError where
  | nameError
  | attributeError
  | indexError
deriving DecidableEq

/-- Timing fields shared by every event variant (spec section 3): delta ticks,
delta milliseconds, absolute tick, absolute milliseconds, and the diagnostic
exit stamps written by time_profile. -/
structure Event where
  delta : Int := 0
  delta_time : ℚ := 0
  tick : Int := 0
  time : ℚ := 0
  exit_time : ℚ := 0
  exit_delta : ℚ := 0
deriving DecidableEq

/-- TrackName meta event (ymidi/events/meta.py, not under src): carries the text label. -/
structure TrackName where
  text : String

/-- InstrumentName meta event (not under src): carries the text label. -/
structure InstrumentName where
  text : String

/-- SetTempo meta event (not under src): carries the tempo in microseconds per beat. -/
structure SetTempo where
  tempo : Int

/-- TimeSignature meta event (not under src): numerator and denominator. -/
structure TimeSignature where
  numerator : Int
  denominator : Int

/-- StartPattern builtin event (not under src): declared division and track count. -/
structure StartPattern where
  divisions : Int
  num_tracks : Nat

/-- EndOfTrack meta event (not under src): a bare marker. -/
structure EndOfTrack

/-- Modelled from the spec: the Track container class (ymidi/containers.py is not under
src).  Per spec section 3 a Track is an ordered sequence of events plus name, instrument,
tempo/microseconds_per_beat, division, time-signature fields and a start_time stamp.
The attribute names msb, mpb, _mpb and tempo that the handlers use all denote the single
microseconds_per_beat quantity of the spec's data model; it is the field `mpb` here.
Field defaults follow the spec's conventional values (tempo 500000, division 480). -/
structure Track where
  events : List Event := []
  name : String := ""
  instrument : String := ""
  mpb : Int := 500000
  division : Int := 480
  timesig_num : Int := 4
  timesig_den : Int := 4
  start_time : ℚ := 0
deriving DecidableEq

/-- Modelled from the spec: the Pattern container class (ymidi/containers.py is not under
src).  Per spec section 3 a Pattern is an ordered sequence of Tracks plus a pattern-wide
`divisions` setting (the handlers' `_division` denotes the same quantity) and the
`track_index` demultiplexing cursor. -/
structure Pattern where
  tracks : List Track := []
  divisions : Int := 480
  track_index : Nat := 0
deriving DecidableEq

/-- Modelled from the spec: de_to_ms (ymidi/misc.py, not under src) converts delta ticks
to milliseconds: ticks * microseconds_per_beat / division / 1000 (spec section 4.1). -/
def de_to_ms (ticks : Int) (division : Int) (mpb : Int) : ℚ :=
  (ticks : ℚ) * (mpb : ℚ) / (division : ℚ) / 1000

/-- Modelled from the spec: ms_to_de (ymidi/misc.py, not under src) is the inverse
conversion, with round-to-nearest as the fixed rounding policy (spec section 4.1 requires
one fixed policy). -/
def ms_to_de (ms : ℚ) (division : Int) (mpb : Int) : Int :=
  round (ms * 1000 * (division : ℚ) / (mpb : ℚ))

/-- track_name handler: `track.name = event.text`; returns None (falsy). -/
def track_name (track : Track) (event : TrackName) (index : Int) : Track × Bool :=
  ({ track with name := event.text }, false)

/-- instrument_name handler: `track.instrument = event.text`; returns None (falsy). -/
def instrument_name (track : Track) (event : InstrumentName) (index : Int) : Track × Bool :=
  ({ track with instrument := event.text }, false)

/-- set_tempo handler: `track.msb = event.tempo` (msb denotes microseconds_per_beat,
see `Track`); returns None (falsy). -/
def set_tempo (track : Track) (event : SetTempo) (index : Int) : Track × Bool :=
  ({ track with mpb := event.tempo }, false)

/-- time_signature handler: sets `timesig_den` then `timesig_num` from the event;
returns None (falsy). -/
def time_signature (track : Track) (event : TimeSignature) (index : Int) : Track × Bool :=
  ({ track with timesig_den := event.denominator, timesig_num := event.numerator }, false)

/-- global_tempo handler, source lines 97-117.  Its loop is `for track in Pattern:`,
iterating the NAME `Pattern` — the class, imported only under `if TYPE_CHECKING`
(lines 29-30) and therefore unbound at runtime — instead of the pattern parameter that
it shadows.  The first thing the body does is look that name up, so every call raises
NameError before any track is touched. -/
def global_tempo (pattern : Pattern) (event : SetTempo) (index : Int) :
    Except PyError (Pattern × Bool) :=
  .error .nameError

/-- start_pattern handler: `pattern.divisions = event.divisions`; returns None (falsy). -/
def start_pattern (pattern : Pattern) (event : StartPattern) (index : Int) : Pattern × Bool :=
  ({ pattern with divisions := event.divisions }, false)

/-- create_tracks handler, source lines 137-155.  The loop body is
`pattern.append(Track())`, and the name `Track` is imported only under
`if TYPE_CHECKING` (lines 29-30), hence unbound at runtime: the first iteration raises
NameError, so the call fails whenever `event.num_tracks > 0` and no track is ever
appended; with zero iterations the function returns None (falsy). -/
def create_tracks (pattern : Pattern) (event : StartPattern) (index : Int) :
    Except PyError (Pattern × Bool) :=
  if event.num_tracks > 0 then .error .nameError else .ok (pattern, false)

/-- stop_track handler: `pattern.track_index += 1`, unconditionally; returns None
(falsy). -/
def stop_track (pattern : Pattern) (event : EndOfTrack) (index : Int) : Pattern × Bool :=
  ({ pattern with track_index := pattern.track_index + 1 }, false)

/-- event_tick handler: `offset = container[index-1].tick if index > 0 else 0;
event.tick = offset + event.delta`.  An `index - 1` outside the event list raises
IndexError.  Returns None (falsy). -/
def event_tick (container : Track) (event : Event) (index : Int) :
    Except PyError (Event × Bool) :=
  if index > 0 then
    match container.events[(index - 1).toNat]? with
    | some prev => .ok ({ event with tick := prev.tick + event.delta }, false)
    | none => .error .indexError
  else
    .ok ({ event with tick := 0 + event.delta }, false)

/-- event_time handler: `offset = container[index-1].time if index > 0 else 0;
event.time = offset + de_to_ms(event.delta, container.division, container._mpb)`
(`_mpb` denotes microseconds_per_beat, see `Track`).  Returns None (falsy). -/
def event_time (container : Track) (event : Event) (index : Int) :
    Except PyError (Event × Bool) :=
  if index > 0 then
    match container.events[(index - 1).toNat]? with
    | some prev =>
        .ok ({ event with
                time := prev.time + de_to_ms event.delta container.division container.mpb },
             false)
    | none => .error .indexError
  else
    .ok ({ event with time := 0 + de_to_ms event.delta container.division container.mpb },
         false)

/-- event_delta_time handler:
`event.delta_time = de_to_ms(event.delta, container.division, container._mpb)`.
Returns None (falsy). -/
def event_delta_time (container : Track) (event : Event) (index : Int) : Event × Bool :=
  ({ event with delta_time := de_to_ms event.delta container.division container.mpb }, false)

/-- determine_delta handler, source lines 258-334, translated branch for branch:
1. `event.delta != 0`: return with no computation;
2. `event.delta_time != 0`: `event.delta = ms_to_de(event.delta_time, container.division,
   container.tempo)` (`tempo` denotes microseconds_per_beat, see `Track`);
3. otherwise take `tick_before`/`time_before` from `container[-1]` (0 and 0 when the
   container is empty), then:
   a. `tick_before <= event.tick`: `event.delta = event.tick - tick_before`;
   b. `time_before <= event.time`: the source evaluates
      `ms_to_de(event.time - time_before, container.track, container.tempo)` — but
      `track` is not an attribute of the Track container (spec section 3; the parallel
      call on line 289 passes `container.division`), so this branch raises
      AttributeError before assigning;
   c. `event.time == 0 and event.tick == 0`: return, delta stays 0;
   d. otherwise the source falls off the end with only a TODO comment: it returns None
      with the event unchanged.
The handler's Python return value is None (falsy) on every path that returns. -/
def determine_delta (container : Track) (event : Event) (index : Int) :
    Except PyError (Event × Bool) :=
  if event.delta ≠ 0 then
    .ok (event, false)
  else if event.delta_time ≠ 0 then
    .ok ({ event with delta := ms_to_de event.delta_time container.division container.mpb },
         false)
  else
    let tick_before : Int := (container.events.getLast?.map Event.tick).getD 0
    let time_before : ℚ := (container.events.getLast?.map Event.time).getD 0
    if tick_before ≤ event.tick then
      .ok ({ event with delta := event.tick - tick_before }, false)
    else if time_before ≤ event.time then
      .error .attributeError
    else if event.time = 0 ∧ event.tick = 0 then
      .ok (event, false)
    else
      .ok (event, false)

/-- Forward position resolution over a list of events, each from its predecessor's final
tick and time: the effect of running the forward-derivation handlers (event_tick,
event_time, event_delta_time) over every event in order. -/
def resolveFrom (division : Int) (mpb : Int) (prevTk : Int) (prevTm : ℚ) :
    List Event → List Event
  | [] => []
  | e :: rest =>
    let e2 := { e with
      tick := prevTk + e.delta,
      time := prevTm + de_to_ms e.delta division mpb,
      delta_time := de_to_ms e.delta division mpb }
    e2 :: resolveFrom division mpb e2.tick e2.time rest

/-- Modelled from the spec: the container method Track.rehandle (ymidi/containers.py is
not under src).  Per spec sections 4.5 and the handler docstring it sends all loaded
events through the input handlers again, re-running forward position resolution over
every event in order from the track start. -/
def Track.rehandle (container : Track) : Track :=
  { container with
      events := resolveFrom container.division container.mpb 0 0 container.events }

/-- rehandle handler, source lines 358-386:
`if index < len(container) and event not in container: container.rehandle()`.
Returns None (falsy). -/
def rehandle (container : Track) (event : Event) (index : Int) : Track × Bool :=
  if index < (container.events.length : Int) ∧ event ∉ container.events then
    (Track.rehandle container, false)
  else
    (container, false)

/-- time_profile handler: stamps `event.exit_time = ytime()` and
`event.exit_delta = current - container.start_time`.  Modelled from the spec: ytime
(ymidi/misc.py, not under src) is a monotonic wall-clock reading, passed here as the
explicit argument `current`.  Returns None (falsy). -/
def time_profile (container : Track) (event : Event) (index : Int) (current : ℚ) :
    Event × Bool :=
  ({ event with exit_time := current, exit_delta := current - container.start_time }, false)

/-- set_division handler: `event.division = container._division; return True`
(`_division` denotes the Pattern's divisions setting, see `Pattern`).  The returned True
is truthy: per the module docstring it stops the handle operation. -/
def set_division (container : Pattern) (event : Track) (index : Int) : Track × Bool :=
  ({ event with division := container.divisions }, true)

/-- Modelled from the spec: Track.append (ymidi/containers.py is not under src) stores
an event at the end of the track after running the input handler chain on it at the
insertion index (the current length; the event is not yet a member while the chain
runs).  The chain, in the order the handlers' docstrings fix (determine_delta first
because all operations rely on the delta, then forward derivation, then the rehandle
check), stops early if a handler returns a truthy value (module docstring lines 16-17);
metadata handlers match no variant of a plain timed event. -/
def Track.appendEvent (container : Track) (event : Event) : Except PyError Track :=
  let n : Int := container.events.length
  let store := fun (c : Track) (e : Event) => { c with events := c.events ++ [e] }
  match determine_delta container event n with
  | .error err => .error err
  | .ok (e1, s1) =>
    if s1 then .ok (store container e1) else
    match event_tick container e1 n with
    | .error err => .error err
    | .ok (e2, s2) =>
      if s2 then .ok (store container e2) else
      match event_time container e2 n with
      | .error err => .error err
      | .ok (e3, s3) =>
        if s3 then .ok (store container e3) else
        let r4 := event_delta_time container e3 n
        if r4.2 then .ok (store container r4.1) else
        let e4 := r4.1
        let r5 := YMidi.rehandle container e4 n
        if r5.2 then .ok (store r5.1 e4) else
        .ok (store r5.1 e4)

/-- sort_events handler: `pattern[pattern.track_index].append(event)`.  An out-of-range
cursor raises IndexError at the subscript; otherwise the event is appended to that track
(running the track's input handler chain, which can itself raise).  Returns None
(falsy). -/
def sort_events (pattern : Pattern) (event : Event) (index : Int) :
    Except PyError (Pattern × Bool) :=
  match pattern.tracks[pattern.track_index]? with
  | none => .error .indexError
  | some tr =>
    match tr.appendEvent event with
    | .error err => .error err
    | .ok tr2 =>
      .ok ({ pattern with tracks := pattern.tracks.set pattern.track_index tr2 }, false)

/-- The handle chain contract from the module docstring (source lines 16-17): run the
handlers in order over the state; if a handler returns anything that does not evaluate
to false, stop and call no further handlers. -/
def runChain {σ : Type} : List (σ → σ × Bool) → σ → σ
  | [], s => s
  | h :: rest, s =>
    let r := h s
    if r.2 then r.1 else runChain rest r.1

/-- Truthiness of a fallible handler's Python return value: an exception is not a
truthy stop signal (it is not a return at all). -/
def returnedStop {α : Type} : Except PyError (α × Bool) → Bool
  | .ok (_, b) => b
  | .error _ => false

/-- Tick of the event before insertion index i (0 when i = 0). -/
def prevTick (c : Track) (i : Nat) : Int :=
  if i = 0 then 0 else ((c.events[i - 1]?).map Event.tick).getD 0

/-- Time of the event before insertion index i (0 when i = 0). -/
def prevTime (c : Track) (i : Nat) : ℚ :=
  if i = 0 then 0 else ((c.events[i - 1]?).map Event.time).getD 0

/-- A track with every field at its default: an empty track. -/
def exEmptyTrack : Track := {}

/-- A track holding one resolved event at tick 10, time 100 ms. -/
def exTrack1 : Track := { events := [{ delta := 4, tick := 10, time := 100 }] }

/-- An event whose absolute tick (5) is earlier than its predecessor's (10) but whose
absolute time (200 ms) is later: reverse derivation reaches the absolute-time branch. -/
def exEventTimeBranch : Event := { tick := 5, time := 200 }

/-- An event with tick 100 and all other position fields 0: the claim's concrete
case-3a instance for an empty track. -/
def exEventTick100 : Event := { tick := 100 }

/-- Claim C1: determine_delta evaluates its rules in strict priority order.  The first
conjunct checks the claim's own concrete instance: on an empty track an event with
tick=100 and delta, delta_time, time all 0 resolves through case 3a to delta = 100.
The second conjunct evaluates the code at the failing input for case 3b: with a
previous event at tick 10, time 100 and a new event at tick 5, time 200, the source
reaches the absolute-time branch and evaluates `container.track`, an attribute the
Track container does not have, raising AttributeError instead of assigning
ms_to_ticks(event.time - previous.time, division, tempo) as the claim states. -/
theorem c1_determine_delta_priority_order :
    determine_delta exEmptyTrack exEventTick100 0
      = .ok ({ exEventTick100 with delta := 100 }, false)
  ∧ determine_delta exTrack1 exEventTimeBranch 1 = .error .attributeError := by
  exact ⟨rfl, rfl⟩

/-- An event claiming positions earlier than its predecessor under every
interpretation: tick 5 < 10 and time 50 ms < 100 ms, not both zero. -/
def exEventInconsistent : Event := { tick := 5, time := 50 }

/-- Claim C2: at a case-3d input (predecessor tick 10 > event tick 5, predecessor time
100 > event time 50, tick and time not both zero) determine_delta returns None
silently — the source falls off the end with only a TODO comment — leaving the event
unchanged with its delta still 0, instead of surfacing an UnresolvablePosition error
as the claim states. -/
theorem c2_case_3d_returns_silently :
    determine_delta exTrack1 exEventInconsistent 1 = .ok (exEventInconsistent, false)
  ∧ exEventInconsistent.delta = 0 := by
  exact ⟨rfl, rfl⟩

/-- A pattern owning two tracks, both at the default tempo. -/
def exPattern5 : Pattern := { tracks := [{}, {}] }

/-- Claim C5: the failing input is any pattern with owned tracks receiving a SetTempo
event.  The handler's loop iterates the name `Pattern` — the class, unbound at runtime
because it is imported only under TYPE_CHECKING — instead of the pattern parameter it
shadows, so the call raises NameError and no owned track's microseconds_per_beat is
updated. -/
theorem c5_global_tempo_raises :
    global_tempo exPattern5 { tempo := 300000 } 0 = .error .nameError := rfl

/-- A pattern whose cursor sits at the boundary value: track_index = 1 = length of its
track list, which the claimed invariant allows. -/
def exPattern6 : Pattern := { tracks := [{}], track_index := 1 }

/-- Counterexample to claim C6: from the boundary state track_index = length(tracks)
= 1, a track-end marker is processed by stop_track with no error — no
ProtocolViolation exists anywhere in the module — and the cursor is advanced to 2,
breaking the upper bound of the claimed invariant. -/
theorem c6_counterexample :
    stop_track exPattern6 {} 0 = ({ exPattern6 with track_index := 2 }, false)
  ∧ exPattern6.tracks.length = 1 := by
  exact ⟨rfl, rfl⟩

/-- Claim C6, amended: stop_track increments track_index unconditionally and returns
None, performing no range check at all, so the upper bound of the invariant is not
preserved; an out-of-range cursor only surfaces later, as an IndexError, when
sort_events subscripts the track list for an ordinary event. -/
theorem c6_stop_track_unchecked (p : Pattern) (e : EndOfTrack) (ev : Event)
    (i j : Int) :
    stop_track p e i = ({ p with track_index := p.track_index + 1 }, false)
  ∧ (p.tracks.length ≤ p.track_index → sort_events p ev j = .error .indexError) := by
  refine ⟨rfl, fun h => ?_⟩
  have hnone : p.tracks[p.track_index]? = none := List.getElem?_eq_none h
  simp [sort_events, hnone]

/-- A pattern with no tracks and the cursor at 0: already at the exhausted boundary. -/
def exPattern6b : Pattern := { }

/-- Witness for the amended C6 theorem at a concrete input: an empty pattern has
length(tracks) = 0 ≤ track_index = 0, stop_track still advances the cursor, and
sort_events on it raises IndexError. -/
theorem c6_stop_track_unchecked_witness :
    exPattern6b.tracks.length ≤ exPattern6b.track_index
  ∧ stop_track exPattern6b {} 0
      = ({ exPattern6b with track_index := exPattern6b.track_index + 1 }, false)
  ∧ sort_events exPattern6b {} 0 = .error .indexError :=
  ⟨by decide, (c6_stop_track_unchecked exPattern6b {} {} 0 0).1,
    (c6_stop_track_unchecked exPattern6b {} {} 0 0).2 (by decide)⟩

/-- A pattern whose division setting differs from a fresh track's default. -/
def exPattern8 : Pattern := { divisions := 0 }

/-- The claim's stream-start marker: declared division 480, three tracks. -/
def exStartPattern : StartPattern := { divisions := 480, num_tracks := 3 }

/-- Claim C8: start_pattern does set the pattern's divisions from the marker, but at
the failing input (num_tracks = 3) create_tracks raises NameError on its first loop
iteration — `Track` is imported only under TYPE_CHECKING and is unbound at runtime —
so no track is ever appended, against the claim's three inherited empty tracks. -/
theorem c8_create_tracks_raises :
    start_pattern exPattern8 exStartPattern 0
      = ({ exPattern8 with divisions := 480 }, false)
  ∧ create_tracks { exPattern8 with divisions := 480 } exStartPattern 0
      = .error .nameError := by
  exact ⟨rfl, rfl⟩

/-- A pattern owning a single named track. -/
def exPattern10 : Pattern := { tracks := [{ name := "lead" }] }

/-- Counterexample to claim C10 as stated: global_tempo does not return None on this
input — it raises NameError (see `global_tempo`), so it is not true that every handler
other than set_division returns None on every input. -/
theorem c10_counterexample :
    global_tempo exPattern10 { tempo := 250000 } 1 = .error .nameError := rfl

/-- Claim C3: for every insertion index i that is at most the track length, the
forward-derivation handlers set event.tick to the previous event's tick (0 when i = 0)
plus event.delta, event.time to the previous event's time (0 when i = 0) plus
ticks_to_ms(event.delta, division, microseconds_per_beat), and event.delta_time to
ticks_to_ms(event.delta, division, microseconds_per_beat). -/
theorem c3_forward_derivation (c : Track) (e : Event) (i : Nat)
    (h : i ≤ c.events.length) :
    event_tick c e i = .ok ({ e with tick := prevTick c i + e.delta }, false)
  ∧ event_time c e i
      = .ok ({ e with time := prevTime c i + de_to_ms e.delta c.division c.mpb }, false)
  ∧ event_delta_time c e i
      = ({ e with delta_time := de_to_ms e.delta c.division c.mpb }, false) := by
  refine ⟨?_, ?_, rfl⟩ <;>
  · cases i with
    | zero => simp [event_tick, event_time, prevTick, prevTime]
    | succ n =>
      have hn : n < c.events.length := by omega
      have hget : c.events[n]? = some c.events[n] := List.getElem?_eq_getElem hn
      have hpos : ((n + 1 : Nat) : Int) > 0 := by positivity
      have htn : (((n + 1 : Nat) : Int) - 1).toNat = n := by omega
      simp [event_tick, event_time, prevTick, prevTime, hpos, htn, hget]

/-- The claim-C3 event for the concrete witness: delta of one beat (480 ticks). -/
def exEventDelta480 : Event := { delta := 480 }

/-- Witness for the C3 theorem at a concrete input: inserting a delta-480 event at
index 1 of a one-event track (division 480, tempo 500000) gives tick 10 + 480 and time
100 + 500 ms. -/
theorem c3_forward_derivation_witness :
    1 ≤ exTrack1.events.length
  ∧ (event_tick exTrack1 exEventDelta480 1
      = .ok ({ exEventDelta480 with tick := prevTick exTrack1 1 + exEventDelta480.delta },
             false)
  ∧ event_time exTrack1 exEventDelta480 1
      = .ok ({ exEventDelta480 with
                time := prevTime exTrack1 1
                  + de_to_ms exEventDelta480.delta exTrack1.division exTrack1.mpb },
             false)
  ∧ event_delta_time exTrack1 exEventDelta480 1
      = ({ exEventDelta480 with
            delta_time := de_to_ms exEventDelta480.delta exTrack1.division exTrack1.mpb },
         false)) :=
  ⟨by decide, c3_forward_derivation exTrack1 exEventDelta480 1 (by decide)⟩

/-- Claim C4: the rehandle handler returns None, invokes the container's full
re-resolution pass exactly when the insertion index is strictly below the container's
length and the inserted event is not already a member, and leaves the container
unchanged in every other case. -/
theorem c4_rehandle_trigger (c : Track) (e : Event) (i : Int) :
    (rehandle c e i).2 = false
  ∧ (i < (c.events.length : Int) ∧ e ∉ c.events
      → rehandle c e i = (Track.rehandle c, false))
  ∧ (¬(i < (c.events.length : Int) ∧ e ∉ c.events)
      → rehandle c e i = (c, false)) := by
  by_cases h : i < (c.events.length : Int) ∧ e ∉ c.events <;>
    simp [rehandle, h]

/-- An event distinct from every event of exTrack1 (its delta differs). -/
def exEventFresh : Event := { delta := 3 }

/-- Witness for the C4 theorem at a concrete input: inserting a fresh event at index 0
of the one-event track satisfies the trigger condition, so the handler performs the
full re-resolution pass. -/
theorem c4_rehandle_trigger_witness :
    rehandle exTrack1 exEventFresh 0 = (Track.rehandle exTrack1, false) :=
  (c4_rehandle_trigger exTrack1 exEventFresh 0).2.1 (by decide)

/-- Claim C7: set_division writes the pattern's division setting onto the inserted
track and returns True, and under the module docstring's chain contract that truthy
return stops the chain: whatever handlers follow it, none of them runs — the chain's
result is already the synchronized track. -/
theorem c7_set_division_stops (p : Pattern) (t : Track) (i : Int)
    (rest : List ((Pattern × Track) → (Pattern × Track) × Bool)) :
    set_division p t i = ({ t with division := p.divisions }, true)
  ∧ runChain
      ((fun s => ((s.1, (set_division s.1 s.2 i).1), (set_division s.1 s.2 i).2)) :: rest)
      (p, t)
      = (p, { t with division := p.divisions }) := by
  exact ⟨rfl, rfl⟩

/-- Claim C9: each metadata handler sets exactly the named track field from its event
variant — name from TrackName.text, instrument from InstrumentName.text,
microseconds_per_beat from SetTempo.tempo, and the time-signature pair from
TimeSignature — and the quantity set_tempo writes is the same one the
tick-to-millisecond conversions in event_time and event_delta_time subsequently read. -/
theorem c9_metadata_handlers (t : Track) (tn : TrackName) (ins : InstrumentName)
    (st : SetTempo) (ts : TimeSignature) (e : Event) (i j : Int) :
    track_name t tn i = ({ t with name := tn.text }, false)
  ∧ instrument_name t ins i = ({ t with instrument := ins.text }, false)
  ∧ set_tempo t st i = ({ t with mpb := st.tempo }, false)
  ∧ time_signature t ts i
      = ({ t with timesig_den := ts.denominator, timesig_num := ts.numerator }, false)
  ∧ event_delta_time (set_tempo t st i).1 e j
      = ({ e with delta_time := de_to_ms e.delta t.division st.tempo }, false)
  ∧ event_time (set_tempo t st i).1 e 0
      = .ok ({ e with time := 0 + de_to_ms e.delta t.division st.tempo }, false) := by
  exact ⟨rfl, rfl, rfl, rfl, rfl, rfl⟩

/-- Claim C10, amended: only set_division ever returns a truthy stop signal; every
other handler of the module, on every input on which it returns at all, returns None
(a falsy signal).  The fallible handlers can instead raise — global_tempo always,
create_tracks whenever num_tracks is positive, determine_delta in its absolute-time
branch, event_tick and event_time on an out-of-range predecessor index, sort_events on
an out-of-range cursor — and an exception is not a stop signal. -/
theorem c10_only_set_division_stops (t : Track) (tn : TrackName) (ins : InstrumentName)
    (st : SetTempo) (ts : TimeSignature) (p : Pattern) (sp : StartPattern)
    (eo : EndOfTrack) (tr : Track) (e : Event) (i : Int) (q : ℚ) :
    (track_name t tn i).2 = false
  ∧ (instrument_name t ins i).2 = false
  ∧ (set_tempo t st i).2 = false
  ∧ (time_signature t ts i).2 = false
  ∧ returnedStop (global_tempo p st i) = false
  ∧ (start_pattern p sp i).2 = false
  ∧ returnedStop (create_tracks p sp i) = false
  ∧ returnedStop (sort_events p e i) = false
  ∧ (stop_track p eo i).2 = false
  ∧ returnedStop (event_tick t e i) = false
  ∧ returnedStop (event_time t e i) = false
  ∧ (event_delta_time t e i).2 = false
  ∧ returnedStop (determine_delta t e i) = false
  ∧ (rehandle t e i).2 = false
  ∧ (time_profile t e i q).2 = false
  ∧ (set_division p tr i).2 = true := by
  refine ⟨rfl, rfl, rfl, rfl, rfl, rfl, ?_, ?_, rfl, ?_, ?_, rfl, ?_, ?_, rfl, rfl⟩
  · unfold create_tracks; split <;> rfl
  · unfold sort_events; split
    · rfl
    · split <;> rfl
  · unfold event_tick; split
    · split <;> rfl
    · rfl
  · unfold event_time; split
    · split <;> rfl
    · rfl
  · dsimp only [determine_delta]; split_ifs <;> rfl
  · unfold rehandle; split <;> rfl

end YMidi
